import Mathlib

/-!
Shallow embedding of the event-ticketing backend (Django app `mainForm`):
the data model of `models.py`, the order-creation view and payment-webhook
view of `views.py`, the registration view, and the ticket-generation Celery
task of `tasks.py`.  Monetary amounts (Django `DecimalField(10,2)`) are
modelled exactly as integer cents; timestamps as natural numbers; record
rows of each table as lists inside a `Db` value.  Each definition cites the
source lines it embeds.
-/

namespace TicketEcommerce

/-! ## Data model (models.py) -/

/-- models.py `TicketClass` (lines 80-98): price is `DecimalField`,
modelled in integer cents; `event` FK as `eventId`. -/
structure TicketClassRec where
  id : Nat
  eventId : Nat
  price : Int
  ticketType : String
deriving Repr, DecidableEq

/-- models.py `Order` (lines 114-182).  `status` ranges over the
STATUS_CHOICES strings (pendente/pago/falha/estornado), `state` over
ativo/cancelado/expirado; `payment_id` is a CharField defaulting to blank;
`paid_at` is nullable.  `user` is a FK, nullable in practice for courtesy
orders (tasks.py line 331 passes `user=None`). -/
structure OrderRec where
  id : Nat
  userId : Option Nat
  totalAmount : Int
  status : String
  state : String
  paymentId : String
  paidAt : Option Nat
deriving Repr, DecidableEq

/-- models.py `OrderItem` (lines 184-200); `subtotal` is recomputed to
`unit_price * quantity` by `save()` (line 199). -/
structure OrderItemRec where
  id : Nat
  orderId : Nat
  eventId : Nat
  ticketClassId : Nat
  quantity : Nat
  unitPrice : Int
  subtotal : Int
deriving Repr, DecidableEq

/-- models.py `Ticket` (lines 217-266). -/
structure TicketRec where
  id : Nat
  orderId : Nat
  orderItemId : Nat
  isRedeemed : Bool
  redeemedAt : Option Nat
  redeemedByStaff : String
  holderName : String
  holderEmail : String
deriving Repr, DecidableEq

/-- The slice of models.py `User` (lines 44-77) the embedded views touch. -/
structure UserRec where
  id : Nat
  email : String
  fullName : String
deriving Repr, DecidableEq

/-- The provider webhook envelope as read by views.py lines 267-275:
only `payload.get('id')`, `payload.get('event')` and
`payload.get('payment', \x7b\x7d).get('id')` are consulted. -/
structure WebhookPayload where
  payloadId : Option String
  event : Option String
  paymentId : Option String
deriving Repr, DecidableEq

/-- models.py `PaymentWebhook` (lines 202-210).  Crucially `order` is
`ForeignKey(Order, on_delete=models.CASCADE, related_name='webhooks')`
with no `null=True`, so the database column is NOT NULL. -/
structure PaymentWebhookRec where
  orderId : Option Nat
  provider : String
  webhookId : Option String
  eventType : Option String
  payload : WebhookPayload
deriving Repr, DecidableEq

/-- The relational store: one list per table, plus a counter of outbound
calls made to the payment-gateway adapter (`AsaasService`), which is all
the claims observe about that boundary. -/
structure Db where
  users : List UserRec
  ticketClasses : List TicketClassRec
  orders : List OrderRec
  orderItems : List OrderItemRec
  tickets : List TicketRec
  paymentWebhooks : List PaymentWebhookRec
  gatewayCalls : Nat
deriving Repr, DecidableEq

/-- Database-level INSERT of a `PaymentWebhook` row.  Because the `order`
column is NOT NULL (models.py line 204), an insert that supplies no order
id raises `IntegrityError`. -/
inductive DbError
  | integrityError
deriving Repr, DecidableEq

def insertPaymentWebhook (db : Db) (row : PaymentWebhookRec) : Except DbError Db :=
  match row.orderId with
  | none => .error .integrityError
  | some _ => .ok { db with paymentWebhooks := db.paymentWebhooks ++ [row] }

/-! ## Ticket.redeem (models.py lines 246-255) -/

inductive RedeemError
  | alreadyRedeemed
deriving Repr, DecidableEq

/-- models.py lines 246-255: raises `ValidationError("Ingresso ja foi
resgatado")` when `is_redeemed` is already true, before any field is
touched; otherwise sets `is_redeemed`, `redeemed_at = now`, and (only when
`staff_member` is truthy, i.e. a non-empty string) `redeemed_by_staff`,
then saves. -/
def redeemTicket (t : TicketRec) (staffMember : Option String) (now : Nat) :
    Except RedeemError TicketRec :=
  if t.isRedeemed then
    .error .alreadyRedeemed
  else
    .ok { t with
      isRedeemed := true
      redeemedAt := some now
      redeemedByStaff :=
        match staffMember with
        | some s => if s = "" then t.redeemedByStaff else s
        | none => t.redeemedByStaff }

/-! ## Ticket fulfillment task (tasks.py) -/

/-- tasks.py `_validate_order_for_ticket_generation` (lines 129-155):
four early-return checks, in source order — status must be `pago`, state
must be `ativo`, no Ticket row may exist for the order, and at least one
OrderItem must exist.  Each failure only logs a warning and returns
False. -/
def validateOrderForTicketGeneration (db : Db) (order : OrderRec) : Bool :=
  (order.status == "pago") &&
  (order.state == "ativo") &&
  !(db.tickets.any (fun t => t.orderId == order.id)) &&
  (db.orderItems.any (fun it => it.orderId == order.id))

/-- tasks.py `_create_tickets_for_order` (lines 158-174): one fresh
`Ticket(order=order, order_item=order_item)` per unit of quantity across
all of the order's items, persisted with `bulk_create`.  Fresh primary
keys are assigned sequentially past the existing rows. -/
def ticketsForOrder (db : Db) (order : OrderRec) : List TicketRec :=
  let itemIds : List Nat :=
    (db.orderItems.filter (fun it => it.orderId == order.id)).flatMap
      (fun it => List.replicate it.quantity it.id)
  itemIds.enum.map (fun p =>
    { id := db.tickets.length + 1 + p.1
      orderId := order.id
      orderItemId := p.2
      isRedeemed := false
      redeemedAt := none
      redeemedByStaff := ""
      holderName := ""
      holderEmail := "" })

/-- Exceptions that can escape the body of `process_ticket_generation`. -/
inductive TaskExc
  | ticketGenerationError
deriving Repr, DecidableEq

/-- Normal (non-exception) returns of the task body. -/
inductive BodyReturn
  | generated (n : Nat)
  | notEligible (orderId : Nat)
deriving Repr, DecidableEq

/-- tasks.py `process_ticket_generation` body (lines 30-97), undecorated.
`bulkCreateOk` stands for whether the database accepts the bulk INSERT of
the new Ticket rows (the external outcome of line 174's `bulk_create`):
* missing order → `TicketGenerationError` (lines 54-57), re-raised by the
  handler at lines 82-84;
* ineligible order → the string return of lines 60-63 (a normal return,
  modelled as `BodyReturn.notEligible`), no ticket created;
* creation failure inside `transaction.atomic()` → full rollback, and the
  exception is re-raised as `TicketGenerationError` (lines 68-75);
* success → the Ticket rows are committed (lines 69-71) and the message of
  lines 79-80 is returned. -/
def processTicketGenerationBody (db : Db) (orderId : Nat) (bulkCreateOk : Bool) :
    Except TaskExc BodyReturn × Db :=
  match db.orders.find? (fun o => o.id == orderId) with
  | none => (.error .ticketGenerationError, db)
  | some order =>
    if !(validateOrderForTicketGeneration db order) then
      (.ok (.notEligible orderId), db)
    else
      let newTickets := ticketsForOrder db order
      if bulkCreateOk then
        (.ok (.generated newTickets.length), { db with tickets := db.tickets ++ newTickets })
      else
        (.error .ticketGenerationError, db)

/-- Observable outcome of one worker-side execution of the decorated
task. -/
inductive TaskOutcome
  | completed (n : Nat)
  | ineligible (orderId : Nat)
  | retryScheduled
  | failedPermanently
deriving Repr, DecidableEq

/-- The decorated task (tasks.py lines 23-30).  The `shared_task`
decorator carries `autoretry_for=(Exception,)` with
`retry_kwargs={'max_retries': 3, ...}`: Celery wraps the body so that ANY
exception it raises — `TicketGenerationError` included, since it
subclasses `Exception` (tasks.py line 18) — is caught and passed to
`self.retry`, which schedules a new attempt while fewer than 3 retries
have happened and otherwise lets the failure become permanent.
`retries` is the current attempt counter (`self.request.retries`). -/
def processTicketGeneration (db : Db) (orderId : Nat) (bulkCreateOk : Bool)
    (retries : Nat) : TaskOutcome × Db :=
  match processTicketGenerationBody db orderId bulkCreateOk with
  | (.ok (.generated n), db') => (.completed n, db')
  | (.ok (.notEligible oid), db') => (.ineligible oid, db')
  | (.error _, db') =>
    if retries < 3 then (.retryScheduled, db') else (.failedPermanently, db')

/-! ## Asaas payment webhook view (views.py lines 244-290) -/

/-- The inbound webhook request: the `Asaas-Webhook-Token` header and the
parsed JSON body. -/
structure WebhookRequest where
  token : Option String
  payload : WebhookPayload
deriving Repr, DecidableEq

inductive WebhookResponse
  | ok200
  | unauthorized401
deriving Repr, DecidableEq

/-- Python truthiness of an optional string: `None` and the empty string
are falsy. -/
def pyTruthy : Option String → Bool
  | none => false
  | some s => !(s == "")

/-- Update one order row in place (Django `order.save(...)`). -/
def updateOrder (db : Db) (oid : Nat) (f : OrderRec → OrderRec) : Db :=
  { db with orders := db.orders.map (fun o => if o.id == oid then f o else o) }

/-- views.py `AsaasWebHookView.post` (lines 247-290):
1. lines 253-259 — `if not token or token != settings.ASAAS_WEBHOOK_SECRET`
   rejects with 401 before anything else;
2. lines 264-272 — `PaymentWebhook.objects.create(provider='asaas', ...)`
   is called WITHOUT an `order` argument, so the INSERT violates the NOT
   NULL `order` column (see `insertPaymentWebhook`) and raises
   `IntegrityError`; the surrounding `try/except` logs the failure and
   continues, leaving the audit table untouched;
3. lines 274-288 — for `event == 'PAYMENT_RECEIVED'` with a truthy
   `payment.id`, `Order.objects.get(payment_id=...)` (which succeeds only
   on exactly one match) is set to `status='pago'`, `paid_at=now` and
   saved; `DoesNotExist` and any other exception are caught and logged;
4. line 290 — the response is 200 regardless of steps 2-3. -/
def asaasWebhookPost (secret : String) (db : Db) (now : Nat)
    (req : WebhookRequest) : WebhookResponse × Db :=
  if !(pyTruthy req.token) || !(req.token == some secret) then
    (.unauthorized401, db)
  else
    let db1 :=
      match insertPaymentWebhook db
          { orderId := none
            provider := "asaas"
            webhookId := req.payload.payloadId
            eventType := req.payload.event
            payload := req.payload } with
      | .ok d => d
      | .error _ => db
    let db2 :=
      if (req.payload.event == some "PAYMENT_RECEIVED") && pyTruthy req.payload.paymentId then
        match db1.orders.filter
            (fun o => o.paymentId == req.payload.paymentId.getD "") with
        | [o] => updateOrder db1 o.id
            (fun x => { x with status := "pago", paidAt := some now })
        | _ => db1
      else db1
    (.ok200, db2)

/-! ## Order creation view (views.py `OrderViewSet.create`, lines 108-206) -/

/-- serializers.py `HolderDataSerializer` (lines 154-157): a holder entry
is a dict with exactly the two keys `holder_name` and `holder_email`. -/
structure HolderData where
  holderName : String
  holderEmail : String
deriving Repr, DecidableEq

/-- One element of the request's `items` list
(serializers.py `OrderCreateItemSerializer`, lines 159-172). -/
structure CreateItemReq where
  ticketClassId : Nat
  quantity : Nat
  holders : Option (List HolderData)
deriving Repr, DecidableEq

/-- serializers.py `OrderCreateSerializer` (lines 174-177). -/
structure OrderCreateReq where
  items : List CreateItemReq
  billingType : String
deriving Repr, DecidableEq

/-- Validation performed by `OrderCreateSerializer` /
`OrderCreateItemSerializer`: items list non-empty (`allow_empty=False`),
`ticket_class_id` and `quantity` both `min_value=1`, the holders list —
when supplied — must have exactly `quantity` entries (serializers.py lines
166-172), and `billing_type` must be one of the three choices. -/
def orderCreateSerializerValid (req : OrderCreateReq) : Bool :=
  !req.items.isEmpty &&
  req.items.all (fun it =>
    decide (1 ≤ it.ticketClassId) && decide (1 ≤ it.quantity) &&
    (match it.holders with
     | none => true
     | some hs => hs.length == it.quantity)) &&
  (req.billingType == "PIX" || req.billingType == "BOLETO" ||
   req.billingType == "CREDIT_CARD")

/-- The Python runtime errors the ticket-creation loop of
`OrderViewSet.create` can raise; both are caught by the generic
`except Exception` handler at views.py lines 200-206 and turned into a
500 response. -/
inductive PyError
  | indexError
  | nameError
deriving Repr, DecidableEq

/-- Responses of `OrderViewSet.create`. -/
inductive CreateResponse
  | created (orderId : Nat)
  | validationError
  | ticketClassNotFound (tcId : Nat)
  | badRequestQuantity
  | internalError (e : PyError)
deriving Repr, DecidableEq

/-- The per-item data assembled by the Step-3 loop
(views.py lines 126-156). -/
structure PendingItem where
  eventId : Nat
  ticketClassId : Nat
  quantity : Nat
  unitPrice : Int
  subtotal : Int
deriving Repr, DecidableEq

def findTicketClass (db : Db) (tcId : Nat) : Option TicketClassRec :=
  db.ticketClasses.find? (fun tc => tc.id == tcId)

/-- views.py lines 126-156 (Step 3): for each requested item, look the
TicketClass up (missing → the 401 response of lines 131-134), re-check
`quantity <= 0` (lines 137-142, a 400), and otherwise record
`subtotal = ticket_class.price * quantity` with the price read from the
ticket class. -/
def assembleItems (db : Db) : List CreateItemReq → Except CreateResponse (List PendingItem)
  | [] => .ok []
  | it :: rest =>
    match findTicketClass db it.ticketClassId with
    | none => .error (.ticketClassNotFound it.ticketClassId)
    | some tc =>
      if it.quantity = 0 then .error .badRequestQuantity
      else
        match assembleItems db rest with
        | .error r => .error r
        | .ok ps =>
          .ok ({ eventId := tc.eventId
                 ticketClassId := tc.id
                 quantity := it.quantity
                 unitPrice := tc.price
                 subtotal := tc.price * (it.quantity : Int) } :: ps)

/-- One iteration of the Step-5 per-item loop (views.py lines 167-181)
for the item at index `i`.  Line 171 evaluates `all_holders_data[i]` —
Python list indexing on the list FLATTENED over all items at line 122 —
which raises `IndexError` when `i` is out of range (in particular whenever
no holders were supplied at all).  When it does yield an element, the
inner loop `for j in range(item.quantity)` runs its body at least once for
any positive quantity, and that body's first statement
`ticket = Ticket(order=order, order_item=item)` (line 174) evaluates the
name `Ticket`, which is absent from the imports of views.py (line 44
imports only Event, Order, TicketClass, OrderItem, PaymentWebhook), so it
raises `NameError` before any holder field is read. -/
def ticketLoopStep (allHolders : List HolderData) (i : Nat) (quantity : Nat) :
    Except PyError Unit :=
  match allHolders[i]? with
  | none => .error .indexError
  | some _ => if quantity = 0 then .ok () else .error .nameError

/-- The whole Step-5 loop over the items, tracking the item index `i`. -/
def ticketLoop (allHolders : List HolderData) : Nat → List PendingItem → Except PyError Unit
  | _, [] => .ok ()
  | i, p :: rest =>
    match ticketLoopStep allHolders i p.quantity with
    | .error e => .error e
    | .ok () => ticketLoop allHolders (i + 1) rest

/-- views.py `OrderViewSet.create` (lines 108-206):
* line 114 — serializer validation (`raise_exception=True` → a 400);
* line 122 — `all_holders_data` flattens every item's holder list into one
  list;
* lines 126-156 — Step 3 (`assembleItems`); its early `return`s happen
  before any row is created, so the database is unchanged;
* lines 158-163 — the Order row is created with `status='pendente'` and
  the computed total;
* lines 165-183 — Step 5 saves the OrderItems and builds the Ticket rows
  (`ticketLoop`); any exception propagates out of `transaction.atomic()`,
  rolling back every row, and reaches the generic handler of lines
  200-206 (a 500 with the database unchanged);
* lines 185-194 — only afterwards: positive totals call
  `AsaasService.create_charge_for_order` (modelled as bumping
  `gatewayCalls` and storing the returned payment id), zero totals are
  marked `pago` with `paid_at = now`.  The ok-branch of `ticketLoop` is
  reachable only when every quantity is 0, which Step 3 has excluded, but
  it is kept for fidelity: it commits the Order and OrderItem rows and no
  Ticket row. -/
def orderViewSetCreate (db : Db) (userId : Nat) (now : Nat) (req : OrderCreateReq) :
    CreateResponse × Db :=
  if !(orderCreateSerializerValid req) then (.validationError, db)
  else
    let allHoldersData := req.items.flatMap (fun it => it.holders.getD [])
    match assembleItems db req.items with
    | .error r => (r, db)
    | .ok pendingItems =>
      let totalAmount := (pendingItems.map (fun p => p.subtotal)).sum
      let orderId := db.orders.length + 1
      match ticketLoop allHoldersData 0 pendingItems with
      | .error e => (.internalError e, db)
      | .ok () =>
        let newItems := pendingItems.enum.map (fun p =>
          { id := db.orderItems.length + 1 + p.1
            orderId := orderId
            eventId := p.2.eventId
            ticketClassId := p.2.ticketClassId
            quantity := p.2.quantity
            unitPrice := p.2.unitPrice
            subtotal := p.2.subtotal : OrderItemRec })
        let baseOrder : OrderRec :=
          { id := orderId, userId := some userId, totalAmount := totalAmount
            status := "pendente", state := "ativo", paymentId := "", paidAt := none }
        if totalAmount > 0 then
          let paid := { baseOrder with paymentId := "pay_" ++ toString orderId }
          (.created orderId,
           { db with orders := db.orders ++ [paid]
                     orderItems := db.orderItems ++ newItems
                     gatewayCalls := db.gatewayCalls + 1 })
        else
          let paid := { baseOrder with status := "pago", paidAt := some now }
          (.created orderId,
           { db with orders := db.orders ++ [paid]
                     orderItems := db.orderItems ++ newItems })

/-! ## User registration view (views.py lines 49-62) -/

/-- A registration request: the request body fields consumed by
serializers.py `UserSerializer` plus the `Idempotency-Key` HTTP header. -/
structure RegistrationReq where
  idempotencyKey : Option String
  email : String
  fullName : String
  cpf : String
  password : String
  address : String
  city : String
  state : String
  postalCode : String
deriving Repr, DecidableEq

inductive RegistrationResponse
  | created (userId : Nat)
  | badRequest
deriving Repr, DecidableEq

/-- views.py `UserRegistrationAPIView` (lines 49-62): a plain DRF
`CreateAPIView` over `UserSerializer`.  Validation (required fields,
unique email — field-format checks are modelled as non-emptiness) rejects
with 400; otherwise the user row is created and 201 returned.  Nothing in
the view or serializer reads the `Idempotency-Key` header: the
`idempotencyKey` field is deliberately unused on both branches, exactly as
in the source. -/
def userRegistrationPost (db : Db) (req : RegistrationReq) :
    RegistrationResponse × Db :=
  if req.email == "" || req.fullName == "" || req.cpf == "" ||
     req.password == "" || req.address == "" || req.city == "" ||
     req.state == "" || req.postalCode == "" ||
     db.users.any (fun u => u.email == req.email) then
    (.badRequest, db)
  else
    let uid := db.users.length + 1
    (.created uid,
     { db with users := db.users ++ [{ id := uid, email := req.email, fullName := req.fullName }] })

/-! ## Concrete fixtures -/

def emptyDb : Db :=
  { users := [], ticketClasses := [], orders := [], orderItems := [],
    tickets := [], paymentWebhooks := [], gatewayCalls := 0 }

/-- A store holding one ticket class priced R$100.00 (10000 cents). -/
def paidClassDb : Db :=
  { emptyDb with ticketClasses := [{ id := 1, eventId := 1, price := 10000, ticketType := "geral" }] }

/-- A valid order-creation request: 2 units of ticket class 1, no holder
list supplied (holders are optional). -/
def twoUnitReq : OrderCreateReq :=
  { items := [{ ticketClassId := 1, quantity := 2, holders := none }], billingType := "PIX" }

/-- A store holding one zero-priced (courtesy) ticket class. -/
def freeClassDb : Db :=
  { emptyDb with ticketClasses := [{ id := 4, eventId := 2, price := 0, ticketType := "cortesia" }] }

def freeUnitReq : OrderCreateReq :=
  { items := [{ ticketClassId := 4, quantity := 1, holders := none }], billingType := "PIX" }

/-- A request that supplies a per-seat holder list matching the quantity,
as serializers.py lines 166-172 require. -/
def holdersReq : OrderCreateReq :=
  { items := [{ ticketClassId := 1, quantity := 2,
                holders := some [{ holderName := "Ana", holderEmail := "ana@x.com" },
                                 { holderName := "Bia", holderEmail := "bia@x.com" }] }]
    billingType := "BOLETO" }

/-! ## C1 — order-creation invariants -/

/-- Claim C1 (code bug): the order-creation invariant is unreachable
because no order-creation request can complete at all.  On the valid
request `twoUnitReq` (serializer-accepted, existing ticket class, positive
quantity, holders omitted) the view reaches the Step-5 ticket loop, where
`all_holders_data[0]` indexes the empty flattened holder list and raises
`IndexError`; the generic handler returns a 500 and the transaction rolls
back, leaving the store unchanged — no Order, OrderItem or Ticket row is
ever created, contradicting the repository's own
`test_create_order_success`. -/
theorem orderCreate_valid_request_returns_500 :
    orderCreateSerializerValid twoUnitReq = true ∧
    orderViewSetCreate paidClassDb 7 100 twoUnitReq =
      (.internalError .indexError, paidClassDb) := by
  decide

/-! ## C3 — complimentary (zero-total) path -/

/-- Claim C3 (code bug): an all-zero-priced request never produces a
`pago` order because the view crashes before reaching the zero-total
branch of views.py lines 190-194.  On `freeUnitReq` the Step-5 loop
raises `IndexError` first, so the response is a 500, no order row exists
afterwards, and — the only part of the claim the code does satisfy — the
payment-gateway adapter is never invoked (`gatewayCalls` stays 0).  The
repository's own `test_create_free_order_cortesia` expects a 201 with
`status='pago'` instead. -/
theorem freeOrderCreate_returns_500_without_gateway_call :
    orderCreateSerializerValid freeUnitReq = true ∧
    orderViewSetCreate freeClassDb 7 50 freeUnitReq =
      (.internalError .indexError, freeClassDb) ∧
    (orderViewSetCreate freeClassDb 7 50 freeUnitReq).2.gatewayCalls = 0 ∧
    (orderViewSetCreate freeClassDb 7 50 freeUnitReq).2.orders = [] := by
  decide

/-! ## C6 — atomic creation with holder pre-population -/

/-- Claim C6 (code bug): holder pre-population never happens.  On
`holdersReq`, whose holder list exactly matches the quantity, the view's
line 171 `all_holders_data[i]` yields a single holder dict (the list was
flattened across items, then indexed by ITEM index), and the loop body
then evaluates the unimported name `Ticket` (views.py line 174) and
raises `NameError`; the transaction rolls back and the request fails with
a 500 instead of creating holder-pre-populated tickets.  (With holders
omitted the same loop dies of `IndexError` instead of leaving the holder
fields blank — see `orderCreate_valid_request_returns_500`.) -/
theorem holderRequest_returns_500_no_tickets :
    orderCreateSerializerValid holdersReq = true ∧
    orderViewSetCreate paidClassDb 7 60 holdersReq =
      (.internalError .nameError, paidClassDb) ∧
    (orderViewSetCreate paidClassDb 7 60 holdersReq).2.tickets = [] := by
  decide

/-! ## C7 — Idempotency-Key enforcement on user registration -/

def noKeyRegistration : RegistrationReq :=
  { idempotencyKey := none, email := "ana@example.com", fullName := "Ana Silva",
    cpf := "70123710138", password := "strongpassword123",
    address := "Rua Teste 123", city := "Sao Paulo", state := "SP",
    postalCode := "01234-567" }

/-- Claim C7 (code bug): `UserRegistrationAPIView` enforces no
Idempotency-Key protocol at all.  A registration request whose
`Idempotency-Key` header is absent is not rejected: the user row is
created and a 201 returned, i.e. the mutation IS attempted, contradicting
both spec section 4.1 and the repository's own
`test_request_missing_idempotency_key`. -/
theorem registration_without_idempotency_key_creates_user :
    noKeyRegistration.idempotencyKey = none ∧
    userRegistrationPost emptyDb noKeyRegistration =
      (.created 1,
       { emptyDb with users := [{ id := 1, email := "ana@example.com", fullName := "Ana Silva" }] }) := by
  decide

/-! ## C8 — TicketGenerationError retry policy -/

/-- A paid, active order with one single-unit item and no tickets yet:
eligible for generation. -/
def eligibleOrderDb : Db :=
  { emptyDb with
    orders := [{ id := 1, userId := some 7, totalAmount := 10000,
                 status := "pago", state := "ativo", paymentId := "pay_1", paidAt := some 10 }]
    orderItems := [{ id := 1, orderId := 1, eventId := 1, ticketClassId := 1,
                     quantity := 1, unitPrice := 10000, subtotal := 10000 }] }

/-- Claim C8 (code bug): when ticket creation fails, the batch is indeed
rolled back (the store comes back unchanged), but the resulting
`TicketGenerationError` IS retried automatically: `shared_task` is
configured with `autoretry_for=(Exception,)` (tasks.py line 25) and
`TicketGenerationError` subclasses `Exception`, so on a first attempt
(`retries = 0`) the worker schedules a retry rather than failing without
retry — contradicting the comment at tasks.py lines 82-84 and the
claim. -/
theorem ticketGenerationError_is_autoretried :
    processTicketGeneration eligibleOrderDb 1 false 0 =
      (.retryScheduled, eligibleOrderDb) := by
  decide

/-! ## C5 — webhook audit durability -/

def webhookOrderDb : Db :=
  { emptyDb with
    orders := [{ id := 2, userId := some 7, totalAmount := 10000,
                 status := "pendente", state := "ativo", paymentId := "pay_5", paidAt := none }] }

def receivedEvent : WebhookRequest :=
  { token := some "whsec"
    payload := { payloadId := some "evt_1", event := some "PAYMENT_RECEIVED",
                 paymentId := some "pay_5" } }

/-- Claim C5 (code bug): the audit row is never persisted.  For an
authenticated `PAYMENT_RECEIVED` delivery the view's
`PaymentWebhook.objects.create` call (views.py lines 265-270) supplies no
`order`, so the non-nullable `order` FK (models.py line 204) makes the
INSERT raise `IntegrityError`; the `except` swallows it and processing
continues — the order still transitions to `pago`, the response is 200,
and the audit table stays empty. -/
theorem webhook_audit_row_never_persisted :
    asaasWebhookPost "whsec" webhookOrderDb 30 receivedEvent =
      (.ok200,
       { webhookOrderDb with
         orders := [{ id := 2, userId := some 7, totalAmount := 10000,
                      status := "pago", state := "ativo", paymentId := "pay_5",
                      paidAt := some 30 }] }) ∧
    (asaasWebhookPost "whsec" webhookOrderDb 30 receivedEvent).2.paymentWebhooks = [] := by
  decide

/-! ## C2 — fulfillment eligibility no-op -/

/-- Claim C2: for an existing order, the fulfillment task creates tickets
only when status is `pago`, state is `ativo`, no Ticket row exists for the
order, and at least one OrderItem exists; whenever any of the four
conditions fails the decorated task ends with the normal not-eligible
return of tasks.py lines 60-63 — no exception, no retry — and the store
is unchanged, so a duplicate paid-transition signal cannot produce a
second ticket batch. -/
theorem task_noop_when_ineligible (db : Db) (orderId : Nat) (order : OrderRec)
    (bulkCreateOk : Bool) (retries : Nat)
    (hfind : db.orders.find? (fun o => o.id == orderId) = some order)
    (hfail : ¬ (order.status = "pago" ∧ order.state = "ativo" ∧
                db.tickets.any (fun t => t.orderId == order.id) = false ∧
                db.orderItems.any (fun it => it.orderId == order.id) = true)) :
    processTicketGeneration db orderId bulkCreateOk retries = (.ineligible orderId, db) := by
  have hv : validateOrderForTicketGeneration db order = false := by
    cases h : validateOrderForTicketGeneration db order with
    | false => rfl
    | true =>
      exfalso
      apply hfail
      unfold validateOrderForTicketGeneration at h
      simp only [Bool.and_eq_true, beq_iff_eq, Bool.not_eq_true'] at h
      exact ⟨h.1.1.1, h.1.1.2, h.1.2, h.2⟩
  simp [processTicketGeneration, processTicketGenerationBody, hfind, hv]

/-- A pending (not yet paid) order: the first eligibility condition
fails. -/
def pendingOrderDb : Db :=
  { emptyDb with
    orders := [{ id := 1, userId := some 7, totalAmount := 10000,
                 status := "pendente", state := "ativo", paymentId := "pay_1", paidAt := none }]
    orderItems := [{ id := 1, orderId := 1, eventId := 1, ticketClassId := 1,
                     quantity := 2, unitPrice := 5000, subtotal := 10000 }] }

theorem task_noop_when_ineligible_witness :
    processTicketGeneration pendingOrderDb 1 true 0 = (.ineligible 1, pendingOrderDb) :=
  task_noop_when_ineligible pendingOrderDb 1
    { id := 1, userId := some 7, totalAmount := 10000,
      status := "pendente", state := "ativo", paymentId := "pay_1", paidAt := none }
    true 0 (by decide) (by decide)

/-! ## C9 — double redemption -/

/-- Claim C9: redeeming an already-redeemed ticket fails with the
conflict `ValidationError` of models.py line 249, raised before any field
is written: the second call on the ticket produced by the first
successful redemption returns the error and produces no updated row, so
`is_redeemed` stays true, `redeemed_at` keeps the first redemption's
timestamp and `redeemed_by_staff` is not overwritten. -/
theorem redeem_twice_conflicts (t u : TicketRec) (s1 s2 : Option String)
    (t1 t2 : Nat)
    (hfirst : redeemTicket t s1 t1 = .ok u) :
    u.isRedeemed = true ∧ u.redeemedAt = some t1 ∧
    redeemTicket u s2 t2 = .error .alreadyRedeemed := by
  unfold redeemTicket at hfirst
  by_cases h : t.isRedeemed
  · simp [h] at hfirst
  · simp [h] at hfirst
    have hu : u.isRedeemed = true := by
      rw [← hfirst]
    have hat : u.redeemedAt = some t1 := by
      rw [← hfirst]
    refine ⟨hu, hat, ?_⟩
    unfold redeemTicket
    simp [hu]

def freshTicket : TicketRec :=
  { id := 11, orderId := 1, orderItemId := 1, isRedeemed := false,
    redeemedAt := none, redeemedByStaff := "", holderName := "Ana",
    holderEmail := "ana@x.com" }

/-- `freshTicket` after its first redemption at time 10 by staff member
"carla". -/
def onceRedeemedTicket : TicketRec :=
  { freshTicket with
    isRedeemed := true
    redeemedAt := some 10
    redeemedByStaff := "carla" }

theorem redeem_twice_conflicts_witness :
    onceRedeemedTicket.isRedeemed = true ∧
    onceRedeemedTicket.redeemedAt = some 10 ∧
    redeemTicket onceRedeemedTicket (some "davi") 20 = .error .alreadyRedeemed :=
  redeem_twice_conflicts freshTicket onceRedeemedTicket
    (some "carla") (some "davi") 10 20 (by rfl)

/-! ## C10 / C4 — webhook PAYMENT_RECEIVED transition -/

/-- Shared evaluation of `asaasWebhookPost` on an authenticated
`PAYMENT_RECEIVED` delivery whose payment id matches exactly one order:
the audit insert fails (NOT NULL `order` column) leaving the audit table
as it was, and the matched order is set to `status='pago'`,
`paid_at=now`, with a 200 response. -/
theorem webhook_received_update (secret : String) (db : Db) (now : Nat)
    (pid eid : String) (o : OrderRec)
    (hsecret : (secret == "") = false)
    (hpid : (pid == "") = false)
    (hmatch : db.orders.filter (fun x => x.paymentId == pid) = [o]) :
    asaasWebhookPost secret db now
        { token := some secret
          payload := { payloadId := some eid, event := some "PAYMENT_RECEIVED",
                       paymentId := some pid } } =
      (.ok200,
       { db with orders := db.orders.map (fun x =>
           if x.id == o.id then { x with status := "pago", paidAt := some now }
           else x) }) := by
  unfold asaasWebhookPost
  simp [pyTruthy, insertPaymentWebhook, hsecret, hpid, hmatch, updateOrder]

/-- Claim C10: an authenticated `PAYMENT_RECEIVED` delivery matching an
order by payment id sets that order's status to `pago` and overwrites
`paid_at` with the current time unconditionally — the order `o` here
carries an arbitrary previous status (failed, refunded, ...) and state
(cancelled, expired, ...), none of which is inspected by views.py lines
277-282, so a late or replayed delivery flips even a refunded, cancelled
order back to paid. -/
theorem webhook_received_overwrites_any_status (secret : String) (db : Db)
    (now : Nat) (pid eid : String) (o : OrderRec)
    (hsecret : secret ≠ "")
    (hpid : pid ≠ "")
    (hmatch : db.orders.filter (fun x => x.paymentId == pid) = [o]) :
    asaasWebhookPost secret db now
        { token := some secret
          payload := { payloadId := some eid, event := some "PAYMENT_RECEIVED",
                       paymentId := some pid } } =
      (.ok200,
       { db with orders := db.orders.map (fun x =>
           if x.id == o.id then { x with status := "pago", paidAt := some now }
           else x) }) :=
  webhook_received_update secret db now pid eid o
    (by simp [hsecret]) (by simp [hpid]) hmatch

/-- A refunded AND cancelled order, still matched by its stored payment
id. -/
def refundedOrder : OrderRec :=
  { id := 3, userId := some 8, totalAmount := 20000, status := "estornado",
    state := "cancelado", paymentId := "pay_9", paidAt := some 2 }

def refundedOrderDb : Db := { emptyDb with orders := [refundedOrder] }

theorem webhook_received_overwrites_any_status_witness :
    asaasWebhookPost "whsec" refundedOrderDb 77
        { token := some "whsec"
          payload := { payloadId := some "evt_9", event := some "PAYMENT_RECEIVED",
                       paymentId := some "pay_9" } } =
      (.ok200,
       { refundedOrderDb with orders := refundedOrderDb.orders.map (fun x =>
           if x.id == refundedOrder.id then { x with status := "pago", paidAt := some 77 }
           else x) }) :=
  webhook_received_overwrites_any_status "whsec" refundedOrderDb 77 "pay_9" "evt_9"
    refundedOrder (by decide) (by decide) (by decide)

/-- An already-paid order with `paid_at = 5`, and an empty audit table. -/
def paidOrder : OrderRec :=
  { id := 1, userId := some 7, totalAmount := 10000, status := "pago",
    state := "ativo", paymentId := "pay_1", paidAt := some 5 }

def paidOrderDb : Db := { emptyDb with orders := [paidOrder] }

def duplicateDelivery : WebhookRequest :=
  { token := some "whsec"
    payload := { payloadId := some "evt_2", event := some "PAYMENT_RECEIVED",
                 paymentId := some "pay_1" } }

/-- Claim C4 counterexample: redelivering `PAYMENT_RECEIVED` at time 9
for the order paid at time 5 is NOT observably a no-op with one new audit
record — `paid_at` is overwritten to 9 (so the orders table changes) and
the audit table gains no record at all (the `PaymentWebhook` insert fails
its NOT NULL `order` column every time). -/
theorem webhook_duplicate_not_pure_noop :
    ¬ ((asaasWebhookPost "whsec" paidOrderDb 9 duplicateDelivery).2.orders =
         paidOrderDb.orders ∧
       (asaasWebhookPost "whsec" paidOrderDb 9 duplicateDelivery).2.paymentWebhooks.length =
         paidOrderDb.paymentWebhooks.length + 1) := by
  decide

/-- Claim C4 as amended: redelivering the same `PAYMENT_RECEIVED` event
for an already-paid order does not raise (the handler answers 200) and
the order's status remains `pago`, but `paid_at` is overwritten with the
redelivery time and the audit log gains no record for any delivery (the
`PaymentWebhook` insert always violates its non-nullable `order` FK and
the exception is swallowed). -/
theorem webhook_duplicate_paid_delivery (secret : String) (db : Db)
    (now : Nat) (pid eid : String) (o : OrderRec)
    (hsecret : secret ≠ "")
    (hpid : pid ≠ "")
    (hmatch : db.orders.filter (fun x => x.paymentId == pid) = [o])
    (_hpaid : o.status = "pago") :
    asaasWebhookPost secret db now
        { token := some secret
          payload := { payloadId := some eid, event := some "PAYMENT_RECEIVED",
                       paymentId := some pid } } =
      (.ok200,
       { db with orders := db.orders.map (fun x =>
           if x.id == o.id then { x with status := "pago", paidAt := some now }
           else x) }) ∧
    (asaasWebhookPost secret db now
        { token := some secret
          payload := { payloadId := some eid, event := some "PAYMENT_RECEIVED",
                       paymentId := some pid } }).2.paymentWebhooks =
      db.paymentWebhooks := by
  have h := webhook_received_update secret db now pid eid o
    (by simp [hsecret]) (by simp [hpid]) hmatch
  exact ⟨h, by rw [h]⟩

theorem webhook_duplicate_paid_delivery_witness :
    (asaasWebhookPost "whsec" paidOrderDb 9 duplicateDelivery =
      (.ok200,
       { paidOrderDb with orders := paidOrderDb.orders.map (fun x =>
           if x.id == paidOrder.id then { x with status := "pago", paidAt := some 9 }
           else x) }) ∧
    (asaasWebhookPost "whsec" paidOrderDb 9 duplicateDelivery).2.paymentWebhooks =
      paidOrderDb.paymentWebhooks) :=
  webhook_duplicate_paid_delivery "whsec" paidOrderDb 9 "pay_1" "evt_2" paidOrder
    (by decide) (by decide) (by decide) (by decide)

end TicketEcommerce
